import Mathlib

/-!
Verification of the gpui-terminal terminal-emulator core.

This file gives a shallow embedding, in Lean 4, of the pure decision logic of
the gpui-terminal repository (box-drawing segment lookup, keyboard and mouse
encoders, renderer row batching and paint-pass dispatch, colour-palette
construction, terminal-state construction and the paint-layer resize loop),
and proves or refutes the specification claims about it.

Conventions used throughout:
* Rust `usize`/`u8`/`u32` values are embedded as `Nat`, `i32` as `Int`;
  pixel quantities (`f32`) are embedded as exact rationals `ℚ`.
* Byte strings (`Vec<u8>`) are embedded as `List Nat`.
* `Option` mirrors Rust `Option`.
* GPUI `Hsla` colours are embedded as the 8-bit RGB triple that the
  repository feeds to its `rgb_to_hsla` conversion: every claim treated here
  concerns which RGB triple is converted and whether two resolved colours are
  equal, never the floating-point HSL coordinates themselves, and
  `rgb_to_hsla` is a pure conversion applied uniformly.
-/

namespace GpuiTerminal

/-! ## Terminal mode flags

Embedding of the `TermMode` bitset restricted to the flags the repository
consults (`src/input.rs`, `src/mouse.rs`): APP_CURSOR, ALT_SCREEN,
MOUSE_REPORT_CLICK, MOUSE_MOTION, MOUSE_DRAG. -/

structure TermMode where
  appCursor : Bool := false
  altScreen : Bool := false
  mouseReportClick : Bool := false
  mouseMotion : Bool := false
  mouseDrag : Bool := false
deriving DecidableEq, Repr

/-- Test of `mode.intersects(MOUSE_REPORT_CLICK | MOUSE_MOTION | MOUSE_DRAG)`
as used by `mouse_button_report` and `scroll_report` in `src/mouse.rs`. -/
def TermMode.anyMouseMode (m : TermMode) : Bool :=
  m.mouseReportClick || m.mouseMotion || m.mouseDrag

/-! ## Box drawing (`src/box_drawing.rs`) -/

/-- Line weight for box-drawing segments (`LineWeight` in `src/box_drawing.rs`). -/
inductive LineWeight where
  | Light
  | Heavy
  | Double
deriving DecidableEq, Repr

/-- Which segments a box-drawing character uses; each segment extends from the
cell center to one of the four edges (`BoxSegments` in `src/box_drawing.rs`). -/
structure BoxSegments where
  top : Option LineWeight
  bottom : Option LineWeight
  left : Option LineWeight
  right : Option LineWeight
deriving DecidableEq, Repr

namespace BoxSegments

def mk4 (t b l r : Option LineWeight) : BoxSegments := ⟨t, b, l, r⟩

def horizontal (w : LineWeight) : BoxSegments := mk4 none none (some w) (some w)

def vertical (w : LineWeight) : BoxSegments := mk4 (some w) (some w) none none

def corner_tl (w : LineWeight) : BoxSegments := mk4 none (some w) none (some w)

def corner_tr (w : LineWeight) : BoxSegments := mk4 none (some w) (some w) none

def corner_bl (w : LineWeight) : BoxSegments := mk4 (some w) none none (some w)

def corner_br (w : LineWeight) : BoxSegments := mk4 (some w) none (some w) none

def t_left (w : LineWeight) : BoxSegments := mk4 (some w) (some w) none (some w)

def t_right (w : LineWeight) : BoxSegments := mk4 (some w) (some w) (some w) none

def t_top (w : LineWeight) : BoxSegments := mk4 none (some w) (some w) (some w)

def t_bottom (w : LineWeight) : BoxSegments := mk4 (some w) none (some w) (some w)

def cross (w : LineWeight) : BoxSegments := mk4 (some w) (some w) (some w) (some w)

/-- At least one of the four segments is present. -/
def hasSegment (s : BoxSegments) : Bool :=
  s.top.isSome || s.bottom.isSome || s.left.isSome || s.right.isSome

end BoxSegments

open LineWeight in
/-- Embedding of `get_box_segments` from `src/box_drawing.rs`, on the
character's Unicode code point (`ch as u32`).  The table is transcribed
entry for entry from the source match. -/
def get_box_segments_code (code : Nat) : Option BoxSegments :=
  if code < 0x2500 || 0x257F < code then none
  else
    match code with
    | 0x2500 => some (BoxSegments.horizontal Light)
    | 0x2501 => some (BoxSegments.horizontal Heavy)
    | 0x2502 => some (BoxSegments.vertical Light)
    | 0x2503 => some (BoxSegments.vertical Heavy)
    | 0x2504 => some (BoxSegments.horizontal Light)
    | 0x2505 => some (BoxSegments.horizontal Heavy)
    | 0x2506 => some (BoxSegments.vertical Light)
    | 0x2507 => some (BoxSegments.vertical Heavy)
    | 0x2508 => some (BoxSegments.horizontal Light)
    | 0x2509 => some (BoxSegments.horizontal Heavy)
    | 0x250A => some (BoxSegments.vertical Light)
    | 0x250B => some (BoxSegments.vertical Heavy)
    | 0x250C => some (BoxSegments.corner_tl Light)
    | 0x2510 => some (BoxSegments.corner_tr Light)
    | 0x2514 => some (BoxSegments.corner_bl Light)
    | 0x2518 => some (BoxSegments.corner_br Light)
    | 0x250D => some (BoxSegments.mk4 none (some Light) none (some Heavy))
    | 0x2511 => some (BoxSegments.mk4 none (some Light) (some Heavy) none)
    | 0x2515 => some (BoxSegments.mk4 (some Light) none none (some Heavy))
    | 0x2519 => some (BoxSegments.mk4 (some Light) none (some Heavy) none)
    | 0x250E => some (BoxSegments.mk4 none (some Heavy) none (some Light))
    | 0x2512 => some (BoxSegments.mk4 none (some Heavy) (some Light) none)
    | 0x2516 => some (BoxSegments.mk4 (some Heavy) none none (some Light))
    | 0x251A => some (BoxSegments.mk4 (some Heavy) none (some Light) none)
    | 0x250F => some (BoxSegments.corner_tl Heavy)
    | 0x2513 => some (BoxSegments.corner_tr Heavy)
    | 0x2517 => some (BoxSegments.corner_bl Heavy)
    | 0x251B => some (BoxSegments.corner_br Heavy)
    | 0x251C => some (BoxSegments.t_left Light)
    | 0x2524 => some (BoxSegments.t_right Light)
    | 0x252C => some (BoxSegments.t_top Light)
    | 0x2534 => some (BoxSegments.t_bottom Light)
    | 0x251D => some (BoxSegments.mk4 (some Light) (some Light) none (some Heavy))
    | 0x2525 => some (BoxSegments.mk4 (some Light) (some Light) (some Heavy) none)
    | 0x252D => some (BoxSegments.mk4 none (some Light) (some Heavy) (some Light))
    | 0x252E => some (BoxSegments.mk4 none (some Light) (some Light) (some Heavy))
    | 0x2535 => some (BoxSegments.mk4 (some Light) none (some Heavy) (some Light))
    | 0x2536 => some (BoxSegments.mk4 (some Light) none (some Light) (some Heavy))
    | 0x251E => some (BoxSegments.mk4 (some Heavy) (some Light) none (some Light))
    | 0x251F => some (BoxSegments.mk4 (some Light) (some Heavy) none (some Light))
    | 0x2526 => some (BoxSegments.mk4 (some Heavy) (some Light) (some Light) none)
    | 0x2527 => some (BoxSegments.mk4 (some Light) (some Heavy) (some Light) none)
    | 0x252F => some (BoxSegments.mk4 none (some Heavy) (some Light) (some Light))
    | 0x2537 => some (BoxSegments.mk4 (some Heavy) none (some Light) (some Light))
    | 0x2520 => some (BoxSegments.mk4 (some Heavy) (some Heavy) none (some Light))
    | 0x2521 => some (BoxSegments.mk4 (some Heavy) (some Light) none (some Heavy))
    | 0x2522 => some (BoxSegments.mk4 (some Light) (some Heavy) none (some Heavy))
    | 0x2523 => some (BoxSegments.t_left Heavy)
    | 0x2528 => some (BoxSegments.mk4 (some Heavy) (some Heavy) (some Light) none)
    | 0x2529 => some (BoxSegments.mk4 (some Heavy) (some Light) (some Heavy) none)
    | 0x252A => some (BoxSegments.mk4 (some Light) (some Heavy) (some Heavy) none)
    | 0x252B => some (BoxSegments.t_right Heavy)
    | 0x2530 => some (BoxSegments.mk4 none (some Heavy) (some Heavy) (some Light))
    | 0x2531 => some (BoxSegments.mk4 none (some Heavy) (some Light) (some Heavy))
    | 0x2532 => some (BoxSegments.mk4 none (some Light) (some Heavy) (some Heavy))
    | 0x2533 => some (BoxSegments.t_top Heavy)
    | 0x2538 => some (BoxSegments.mk4 (some Heavy) none (some Heavy) (some Light))
    | 0x2539 => some (BoxSegments.mk4 (some Heavy) none (some Light) (some Heavy))
    | 0x253A => some (BoxSegments.mk4 (some Light) none (some Heavy) (some Heavy))
    | 0x253B => some (BoxSegments.t_bottom Heavy)
    | 0x253C => some (BoxSegments.cross Light)
    | 0x253D => some (BoxSegments.mk4 (some Light) (some Light) (some Heavy) (some Light))
    | 0x253E => some (BoxSegments.mk4 (some Light) (some Light) (some Light) (some Heavy))
    | 0x253F => some (BoxSegments.mk4 (some Light) (some Light) (some Heavy) (some Heavy))
    | 0x2540 => some (BoxSegments.mk4 (some Heavy) (some Light) (some Light) (some Light))
    | 0x2541 => some (BoxSegments.mk4 (some Light) (some Heavy) (some Light) (some Light))
    | 0x2542 => some (BoxSegments.mk4 (some Heavy) (some Heavy) (some Light) (some Light))
    | 0x2543 => some (BoxSegments.mk4 (some Heavy) (some Light) (some Heavy) (some Light))
    | 0x2544 => some (BoxSegments.mk4 (some Heavy) (some Light) (some Light) (some Heavy))
    | 0x2545 => some (BoxSegments.mk4 (some Light) (some Heavy) (some Heavy) (some Light))
    | 0x2546 => some (BoxSegments.mk4 (some Light) (some Heavy) (some Light) (some Heavy))
    | 0x2547 => some (BoxSegments.mk4 (some Heavy) (some Heavy) (some Heavy) (some Light))
    | 0x2548 => some (BoxSegments.mk4 (some Heavy) (some Heavy) (some Light) (some Heavy))
    | 0x2549 => some (BoxSegments.mk4 (some Heavy) (some Light) (some Heavy) (some Heavy))
    | 0x254A => some (BoxSegments.mk4 (some Light) (some Heavy) (some Heavy) (some Heavy))
    | 0x254B => some (BoxSegments.cross Heavy)
    | 0x254C => some (BoxSegments.horizontal Light)
    | 0x254D => some (BoxSegments.horizontal Heavy)
    | 0x254E => some (BoxSegments.vertical Light)
    | 0x254F => some (BoxSegments.vertical Heavy)
    | 0x2550 => some (BoxSegments.horizontal Double)
    | 0x2551 => some (BoxSegments.vertical Double)
    | 0x2554 => some (BoxSegments.corner_tl Double)
    | 0x2557 => some (BoxSegments.corner_tr Double)
    | 0x255A => some (BoxSegments.corner_bl Double)
    | 0x255D => some (BoxSegments.corner_br Double)
    | 0x2552 => some (BoxSegments.mk4 none (some Light) none (some Double))
    | 0x2553 => some (BoxSegments.mk4 none (some Double) none (some Light))
    | 0x2555 => some (BoxSegments.mk4 none (some Light) (some Double) none)
    | 0x2556 => some (BoxSegments.mk4 none (some Double) (some Light) none)
    | 0x2558 => some (BoxSegments.mk4 (some Light) none none (some Double))
    | 0x2559 => some (BoxSegments.mk4 (some Double) none none (some Light))
    | 0x255B => some (BoxSegments.mk4 (some Light) none (some Double) none)
    | 0x255C => some (BoxSegments.mk4 (some Double) none (some Light) none)
    | 0x2560 => some (BoxSegments.t_left Double)
    | 0x2563 => some (BoxSegments.t_right Double)
    | 0x2566 => some (BoxSegments.t_top Double)
    | 0x2569 => some (BoxSegments.t_bottom Double)
    | 0x255E => some (BoxSegments.mk4 (some Light) (some Light) none (some Double))
    | 0x255F => some (BoxSegments.mk4 (some Double) (some Double) none (some Light))
    | 0x2561 => some (BoxSegments.mk4 (some Light) (some Light) (some Double) none)
    | 0x2562 => some (BoxSegments.mk4 (some Double) (some Double) (some Light) none)
    | 0x2564 => some (BoxSegments.mk4 none (some Light) (some Double) (some Double))
    | 0x2565 => some (BoxSegments.mk4 none (some Double) (some Light) (some Light))
    | 0x2567 => some (BoxSegments.mk4 (some Light) none (some Double) (some Double))
    | 0x2568 => some (BoxSegments.mk4 (some Double) none (some Light) (some Light))
    | 0x256C => some (BoxSegments.cross Double)
    | 0x256A => some (BoxSegments.mk4 (some Light) (some Light) (some Double) (some Double))
    | 0x256B => some (BoxSegments.mk4 (some Double) (some Double) (some Light) (some Light))
    | 0x256D => some (BoxSegments.corner_tl Light)
    | 0x256E => some (BoxSegments.corner_tr Light)
    | 0x256F => some (BoxSegments.corner_br Light)
    | 0x2570 => some (BoxSegments.corner_bl Light)
    | 0x2571 => none
    | 0x2572 => none
    | 0x2573 => none
    | 0x2574 => some (BoxSegments.mk4 none none (some Light) none)
    | 0x2575 => some (BoxSegments.mk4 (some Light) none none none)
    | 0x2576 => some (BoxSegments.mk4 none none none (some Light))
    | 0x2577 => some (BoxSegments.mk4 none (some Light) none none)
    | 0x2578 => some (BoxSegments.mk4 none none (some Heavy) none)
    | 0x2579 => some (BoxSegments.mk4 (some Heavy) none none none)
    | 0x257A => some (BoxSegments.mk4 none none none (some Heavy))
    | 0x257B => some (BoxSegments.mk4 none (some Heavy) none none)
    | 0x257C => some (BoxSegments.mk4 none none (some Light) (some Heavy))
    | 0x257D => some (BoxSegments.mk4 (some Light) (some Heavy) none none)
    | 0x257E => some (BoxSegments.mk4 none none (some Heavy) (some Light))
    | 0x257F => some (BoxSegments.mk4 (some Heavy) (some Light) none none)
    | _ => none

/-- Embedding of `get_box_segments` on a character value. -/
def get_box_segments (ch : Char) : Option BoxSegments :=
  get_box_segments_code ch.toNat

/-- Embedding of `is_box_drawing_char` from `src/box_drawing.rs`:
code in U+2500..=U+257F. -/
def is_box_drawing_char_code (code : Nat) : Bool :=
  0x2500 ≤ code && code ≤ 0x257F

/-- Embedding of `is_box_drawing_char` on a character value. -/
def is_box_drawing_char (ch : Char) : Bool :=
  is_box_drawing_char_code ch.toNat

/-- Embedding of `get_horizontal_weight` from `src/box_drawing.rs`. -/
def get_horizontal_weight_code (code : Nat) : Option LineWeight :=
  match get_box_segments_code code with
  | none => none
  | some segments =>
    match segments.left, segments.right with
    | some l, some r => if l = r then some l else none
    | _, _ => none

/-! ## Byte-string helpers

Decimal formatting (Rust `format!` of an integer) and UTF-8 encoding
(Rust `str::as_bytes` / `str::len`), used by the input and mouse encoders. -/

/-- Decimal digits of a natural number, as ASCII bytes, most significant
first; mirrors Rust `format!` of an unsigned integer. -/
def nat_decimal_bytes (n : Nat) : List Nat :=
  (Nat.toDigits 10 n).map Char.toNat

/-- Decimal representation of an integer, as ASCII bytes; mirrors Rust
`format!` of a signed integer. -/
def int_decimal_bytes (i : Int) : List Nat :=
  if i < 0 then 0x2D :: nat_decimal_bytes i.natAbs else nat_decimal_bytes i.toNat

/-- UTF-8 encoding of one Unicode scalar value, as a byte list. -/
def utf8_encode_char (c : Char) : List Nat :=
  let n := c.toNat
  if n < 0x80 then [n]
  else if n < 0x800 then [0xC0 + n / 64, 0x80 + n % 64]
  else if n < 0x10000 then [0xE0 + n / 4096, 0x80 + n / 64 % 64, 0x80 + n % 64]
  else [0xF0 + n / 262144, 0x80 + n / 4096 % 64, 0x80 + n / 64 % 64, 0x80 + n % 64]

/-- UTF-8 bytes of a string: Rust `str::as_bytes`. -/
def utf8_bytes (s : String) : List Nat :=
  (s.data.map utf8_encode_char).flatten

/-- Byte length of a string: Rust `str::len`. -/
def utf8_len (s : String) : Nat :=
  (utf8_bytes s).length

/-! ## Renderer data model and row layout (`src/render.rs`)

Colour references and resolved colours are abstracted as `Nat`; `layout_row`
is parametrised by the resolution function `self.palette.resolve(_, colors)`,
whose only use in the layout is equality comparison of resolved values. -/

/-- A terminal cell as consumed by the renderer: character, colour
references, and the flags the renderer reads (WIDE_CHAR_SPACER, BOLD,
ITALIC, UNDERLINE). -/
structure Cell where
  c : Char
  fg : Nat
  bg : Nat
  wide_char_spacer : Bool := false
  bold : Bool := false
  italic : Bool := false
  underline : Bool := false
deriving DecidableEq, Repr

/-- Embedding of `BatchedTextRun` from `src/render.rs`.  The `cells` field is
a ghost field, absent from the source: it records the (column, cell) pairs
the run absorbed, exactly one entry per character pushed onto `text`, so that
the coverage invariant can be stated. -/
structure BatchedTextRun where
  text : List Char
  start_col : Nat
  row : Nat
  fg_color : Nat
  bg_color : Nat
  bold : Bool
  italic : Bool
  underline : Bool
  cells : List (Nat × Cell)
deriving DecidableEq, Repr

/-- Embedding of `BackgroundRect` from `src/render.rs`. -/
structure BackgroundRect where
  start_col : Nat
  end_col : Nat
  row : Nat
  color : Nat
deriving DecidableEq, Repr

/-- Embedding of `BackgroundRect::can_merge_with`. -/
def can_merge_with (a b : BackgroundRect) : Bool :=
  a.row == b.row && a.color == b.color && a.end_col == b.start_col

/-- Loop body of `TerminalRenderer::merge_backgrounds`. -/
def merge_backgrounds_go (current : BackgroundRect) :
    List BackgroundRect → List BackgroundRect
  | [] => [current]
  | rect :: rest =>
    if can_merge_with current rect then
      merge_backgrounds_go { current with end_col := rect.end_col } rest
    else
      current :: merge_backgrounds_go rect rest

/-- Embedding of `TerminalRenderer::merge_backgrounds` from `src/render.rs`. -/
def merge_backgrounds : List BackgroundRect → List BackgroundRect
  | [] => []
  | r :: rest => merge_backgrounds_go r rest

/-- The character the layout uses for a cell: NUL and space are treated
equivalently (`src/render.rs`, `layout_row`). -/
def layout_char (cell : Cell) : Char :=
  if cell.c = ' ' || cell.c = Char.ofNat 0 then ' ' else cell.c

/-- Loop of `TerminalRenderer::layout_row` from `src/render.rs`, written as
structural recursion over the remaining cells; `current_run` and
`current_bg` are the loop state, and flushed items are emitted in the order
the source pushes them. -/
def layout_row_go (resolve : Nat → Nat) (row : Nat)
    (current_run : Option BatchedTextRun) (current_bg : Option BackgroundRect) :
    List (Nat × Cell) → List BackgroundRect × List BatchedTextRun
  | [] =>
    ((match current_bg with | some b => [b] | none => []),
     (match current_run with | some r => [r] | none => []))
  | (col, cell) :: rest =>
    if cell.wide_char_spacer then
      layout_row_go resolve row current_run current_bg rest
    else
      let fg_color := resolve cell.fg
      let bg_color := resolve cell.bg
      let ch := layout_char cell
      let bgStep : List BackgroundRect × Option BackgroundRect :=
        match current_bg with
        | some bg_rect =>
          if bg_rect.color == bg_color && bg_rect.end_col == col then
            ([], some { bg_rect with end_col := col + 1 })
          else
            ([bg_rect], some ⟨col, col + 1, row, bg_color⟩)
        | none => ([], some ⟨col, col + 1, row, bg_color⟩)
      let runStep : List BatchedTextRun × Option BatchedTextRun :=
        match current_run with
        | some run =>
          if run.fg_color == fg_color && run.bg_color == bg_color &&
              run.bold == cell.bold && run.italic == cell.italic &&
              run.underline == cell.underline then
            ([], some { run with
                          text := run.text ++ [ch],
                          cells := run.cells ++ [(col, cell)] })
          else
            ([run], some ⟨[ch], col, row, fg_color, bg_color,
                          cell.bold, cell.italic, cell.underline, [(col, cell)]⟩)
        | none =>
          ([], some ⟨[ch], col, row, fg_color, bg_color,
                     cell.bold, cell.italic, cell.underline, [(col, cell)]⟩)
      let next := layout_row_go resolve row runStep.2 bgStep.2 rest
      (bgStep.1 ++ next.1, runStep.1 ++ next.2)

/-- Embedding of `TerminalRenderer::layout_row` from `src/render.rs`:
returns (merged background rects, batched text runs). -/
def layout_row (resolve : Nat → Nat) (row : Nat) (cells : List (Nat × Cell)) :
    List BackgroundRect × List BatchedTextRun :=
  let st := layout_row_go resolve row none none cells
  (merge_backgrounds st.1, st.2)

/-! ## Paint-pass dispatch (`TerminalRenderer::paint`, `src/render.rs`)

Per-cell dispatch of the paint passes, independent of geometry.  The second
pass runs exactly for non-blank characters in the box-drawing range, and both
`draw_box_character` and `draw_vertical_components` (`src/box_drawing.rs`)
return without emitting any path when `get_box_segments` is `None`; the first
(horizontal-span) pass likewise requires `get_horizontal_weight` to be
`Some`, which implies a `Some` segment lookup. -/

/-- Guard of the third (text) pass of `TerminalRenderer::paint`: a cell's
character is shaped and painted as glyph text iff it is not blank and not in
the box-drawing range U+2500..=U+257F. -/
def painted_as_text (ch : Char) : Bool :=
  !(ch = ' ' || ch = Char.ofNat 0) && !is_box_drawing_char ch

/-- Whether the box-drawing passes of `TerminalRenderer::paint` emit any
geometry for a cell: the character must be non-blank, in the box-drawing
range, and its segment lookup must succeed. -/
def box_pass_draws (ch : Char) : Bool :=
  !(ch = ' ' || ch = Char.ofNat 0) && is_box_drawing_char ch &&
    (get_box_segments ch).isSome

/-! ## Input encoder (`src/input.rs`) -/

/-- Keystroke modifiers consumed by `keystroke_to_bytes` (GPUI
`Modifiers`, restricted to the fields the encoder reads). -/
structure Modifiers where
  control : Bool := false
  alt : Bool := false
  shift : Bool := false
deriving DecidableEq, Repr

/-- A GPUI keystroke as consumed by `keystroke_to_bytes`: key name,
optional typed character, and modifiers. -/
structure Keystroke where
  key : String
  key_char : Option String := none
  modifiers : Modifiers := {}
deriving DecidableEq, Repr

/-- The leading `match keystroke.key.as_str()` of `keystroke_to_bytes`
(`src/input.rs`): named keys.  Every matched arm returns, so the result is
`some`; unmatched keys fall through (`none` here). -/
def named_key_bytes (ks : Keystroke) (mode : TermMode) : Option (List Nat) :=
  if ks.key = "space" then
    some (if ks.modifiers.control then [0x00] else [0x20])
  else if ks.key = "enter" then some [0x0D]
  else if ks.key = "escape" then some [0x1B]
  else if ks.key = "backspace" then some [0x7F]
  else if ks.key = "tab" then
    some (if ks.modifiers.shift then [0x1B, 0x5B, 0x5A] else [0x09])
  else if ks.key = "up" then
    some (if mode.appCursor then [0x1B, 0x4F, 0x41] else [0x1B, 0x5B, 0x41])
  else if ks.key = "down" then
    some (if mode.appCursor then [0x1B, 0x4F, 0x42] else [0x1B, 0x5B, 0x42])
  else if ks.key = "right" then
    some (if mode.appCursor then [0x1B, 0x4F, 0x43] else [0x1B, 0x5B, 0x43])
  else if ks.key = "left" then
    some (if mode.appCursor then [0x1B, 0x4F, 0x44] else [0x1B, 0x5B, 0x44])
  else if ks.key = "home" then some [0x1B, 0x5B, 0x48]
  else if ks.key = "end" then some [0x1B, 0x5B, 0x46]
  else if ks.key = "pageup" then some [0x1B, 0x5B, 0x35, 0x7E]
  else if ks.key = "pagedown" then some [0x1B, 0x5B, 0x36, 0x7E]
  else if ks.key = "insert" then some [0x1B, 0x5B, 0x32, 0x7E]
  else if ks.key = "delete" then some [0x1B, 0x5B, 0x33, 0x7E]
  else if ks.key = "f1" then some [0x1B, 0x4F, 0x50]
  else if ks.key = "f2" then some [0x1B, 0x4F, 0x51]
  else if ks.key = "f3" then some [0x1B, 0x4F, 0x52]
  else if ks.key = "f4" then some [0x1B, 0x4F, 0x53]
  else if ks.key = "f5" then some [0x1B, 0x5B, 0x31, 0x35, 0x7E]
  else if ks.key = "f6" then some [0x1B, 0x5B, 0x31, 0x37, 0x7E]
  else if ks.key = "f7" then some [0x1B, 0x5B, 0x31, 0x38, 0x7E]
  else if ks.key = "f8" then some [0x1B, 0x5B, 0x31, 0x39, 0x7E]
  else if ks.key = "f9" then some [0x1B, 0x5B, 0x32, 0x30, 0x7E]
  else if ks.key = "f10" then some [0x1B, 0x5B, 0x32, 0x31, 0x7E]
  else if ks.key = "f11" then some [0x1B, 0x5B, 0x32, 0x33, 0x7E]
  else if ks.key = "f12" then some [0x1B, 0x5B, 0x32, 0x34, 0x7E]
  else none

/-- The `if keystroke.modifiers.control` block of `keystroke_to_bytes`:
Ctrl plus a single-byte key.  `none` means the block did not return and
control falls through to the Alt handling. -/
def ctrl_key_bytes (ks : Keystroke) : Option (List Nat) :=
  if ks.modifiers.control then
    if utf8_len ks.key = 1 then
      let ch := ks.key.data.headD 'A'
      if ch.isAlpha then some [ch.toUpper.toNat - 0x40]
      else if ch = '[' then some [0x1B]
      else if ch = '\\' then some [0x1C]
      else if ch = ']' then some [0x1D]
      else if ch = '^' then some [0x1E]
      else if ch = '_' then some [0x1F]
      else if ch = '?' then some [0x7F]
      else none
    else none
  else none

/-- The `if keystroke.modifiers.alt` block of `keystroke_to_bytes`:
ESC followed by the single ASCII key byte. -/
def alt_key_bytes (ks : Keystroke) : Option (List Nat) :=
  if ks.modifiers.alt then
    if utf8_len ks.key = 1 then
      let ch := ks.key.data.headD 'A'
      if ch.toNat ≤ 0x7F then some [0x1B, ch.toNat] else none
    else none
  else none

/-- The trailing fallback of `keystroke_to_bytes`: printable characters. -/
def fallback_key_bytes (ks : Keystroke) : Option (List Nat) :=
  match ks.key_char with
  | some kc =>
    if !ks.modifiers.control && !ks.modifiers.alt then some (utf8_bytes kc)
    else fallback_single_key ks
  | none => fallback_single_key ks
where
  fallback_single_key (ks : Keystroke) : Option (List Nat) :=
    if utf8_len ks.key = 1 then
      let ch := ks.key.data.headD 'A'
      if ch.toNat ≤ 0x7F && !ks.modifiers.control then
        some [(if ks.modifiers.shift then ch.toUpper else ch).toNat]
      else if !ks.modifiers.control && !ks.modifiers.alt then
        some (utf8_bytes ks.key)
      else none
    else none

/-- Embedding of `keystroke_to_bytes` from `src/input.rs`: named keys first,
then Ctrl combinations, then Alt combinations, then printable fallback. -/
def keystroke_to_bytes (ks : Keystroke) (mode : TermMode) : Option (List Nat) :=
  match named_key_bytes ks mode with
  | some bytes => some bytes
  | none =>
    match ctrl_key_bytes ks with
    | some bytes => some bytes
    | none =>
      match alt_key_bytes ks with
      | some bytes => some bytes
      | none => fallback_key_bytes ks

/-! ## Mouse encoder (`src/mouse.rs`) -/

/-- A terminal grid point (alacritty `Point`): `line` is an `i32`, `column`
a `usize`. -/
structure AlacPoint where
  line : Int
  column : Nat
deriving DecidableEq, Repr

/-- Mouse buttons distinguished by `mouse_button_report`; every variant other
than Left/Middle/Right is collapsed into `other` (the source ignores them
with a wildcard arm). -/
inductive MouseButton where
  | left
  | middle
  | right
  | other
deriving DecidableEq, Repr

/-- The SGR 1006 byte sequence `ESC [ < B ; col ; row ACTION` produced by the
`format!` calls in `src/mouse.rs`. -/
def sgr_bytes (button_value : Nat) (col : Nat) (row : Int) (action : Nat) :
    List Nat :=
  [0x1B, 0x5B, 0x3C] ++ nat_decimal_bytes button_value ++ [0x3B] ++
    nat_decimal_bytes col ++ [0x3B] ++ int_decimal_bytes row ++ [action]

/-- Embedding of `mouse_button_report` from `src/mouse.rs`. -/
def mouse_button_report (button : MouseButton) (pressed : Bool)
    (point : AlacPoint) (modifiers : Nat) (mode : TermMode) :
    Option (List Nat) :=
  if !mode.anyMouseMode then none
  else
    match button with
    | .left => some (button_report_bytes 0 pressed point modifiers)
    | .middle => some (button_report_bytes 1 pressed point modifiers)
    | .right => some (button_report_bytes 2 pressed point modifiers)
    | .other => none
where
  button_report_bytes (button_code : Nat) (pressed : Bool) (point : AlacPoint)
      (modifiers : Nat) : List Nat :=
    sgr_bytes (Nat.lor button_code modifiers) (point.column + 1)
      (point.line + 1) (if pressed then 0x4D else 0x6D)

/-- Embedding of `scroll_to_arrow_keys` from `src/mouse.rs`. -/
def scroll_to_arrow_keys (delta : Int) (mode : TermMode) : List Nat :=
  let count := min delta.natAbs 5
  let arrow_seq : List Nat :=
    if delta > 0 then
      if mode.appCursor then [0x1B, 0x4F, 0x41] else [0x1B, 0x5B, 0x41]
    else
      if mode.appCursor then [0x1B, 0x4F, 0x42] else [0x1B, 0x5B, 0x42]
  (List.replicate count arrow_seq).flatten

/-- Embedding of `scroll_report` from `src/mouse.rs`. -/
def scroll_report (delta : Int) (point : AlacPoint) (modifiers : Nat)
    (mode : TermMode) : Option (List Nat) :=
  if mode.anyMouseMode then
    let button_code : Nat := if delta > 0 then 64 else 65
    let button_value := Nat.lor button_code modifiers
    some (sgr_bytes button_value (point.column + 1) (point.line + 1) 0x4D)
  else if mode.altScreen then
    some (scroll_to_arrow_keys delta mode)
  else none

/-! ## Colour palette (`src/colors.rs`)

`Hsla` colour values are represented by the 8-bit RGB triple passed to
`rgb_to_hsla`; the conversion itself is a pure function applied uniformly, so
the palette-construction claims (which RGB triple each entry is converted
from, and equality between entries) are captured exactly. -/

/-- An 8-bit RGB triple (alacritty `Rgb`). -/
structure Rgb where
  r : Nat
  g : Nat
  b : Nat
deriving DecidableEq, Repr

/-- A resolved colour value, represented by the RGB triple it was converted
from by `rgb_to_hsla` (`src/colors.rs`).  The conversion is injective for
the purposes of this development: the claims concern only which triple is
converted and equality of resolved values. -/
structure Hsla where
  ofRgb : Rgb
deriving DecidableEq, Repr

/-- Embedding of `rgb_to_hsla` from `src/colors.rs`, at the level of which
triple is converted. -/
def rgb_to_hsla (c : Rgb) : Hsla := ⟨c⟩

/-- Embedding of `ColorPalette` from `src/colors.rs`: the arrays become
lists of length 16 and 256. -/
structure ColorPalette where
  ansi_colors : List Hsla
  extended_colors : List Hsla
  foreground : Hsla
  background : Hsla
  cursor : Hsla
deriving DecidableEq, Repr

/-- The 16 default ANSI colours of `ColorPalette::default`
(`src/colors.rs`), in table order. -/
def default_ansi_colors : List Hsla :=
  [rgb_to_hsla ⟨0x00, 0x00, 0x00⟩,
   rgb_to_hsla ⟨0xcc, 0x00, 0x00⟩,
   rgb_to_hsla ⟨0x4e, 0x9a, 0x06⟩,
   rgb_to_hsla ⟨0xc4, 0xa0, 0x00⟩,
   rgb_to_hsla ⟨0x34, 0x65, 0xa4⟩,
   rgb_to_hsla ⟨0x75, 0x50, 0x7b⟩,
   rgb_to_hsla ⟨0x06, 0x98, 0x9a⟩,
   rgb_to_hsla ⟨0xd3, 0xd7, 0xcf⟩,
   rgb_to_hsla ⟨0x55, 0x57, 0x53⟩,
   rgb_to_hsla ⟨0xef, 0x29, 0x29⟩,
   rgb_to_hsla ⟨0x8a, 0xe2, 0x34⟩,
   rgb_to_hsla ⟨0xfc, 0xe9, 0x4f⟩,
   rgb_to_hsla ⟨0x72, 0x9f, 0xcf⟩,
   rgb_to_hsla ⟨0xad, 0x7f, 0xa8⟩,
   rgb_to_hsla ⟨0x34, 0xe2, 0xe2⟩,
   rgb_to_hsla ⟨0xee, 0xee, 0xec⟩]

/-- Component level of the 6×6×6 colour cube in `ColorPalette::default`:
`if v == 0 { 0 } else { 55 + v * 40 }`. -/
def cube_level (v : Nat) : Nat :=
  if v = 0 then 0 else 55 + v * 40

/-- The 216 colour-cube entries (extended indices 16..232), produced by the
nested `r`/`g`/`b` loops of `ColorPalette::default` in source order. -/
def color_cube : List Hsla :=
  ((List.range 6).map (fun r =>
    ((List.range 6).map (fun g =>
      (List.range 6).map (fun b =>
        rgb_to_hsla ⟨cube_level r, cube_level g, cube_level b⟩))).flatten)).flatten

/-- The 24 grayscale-ramp entries (extended indices 232..256) of
`ColorPalette::default`: value `8 + 10·i` on all three channels. -/
def grayscale_ramp : List Hsla :=
  (List.range 24).map (fun i =>
    rgb_to_hsla ⟨8 + i * 10, 8 + i * 10, 8 + i * 10⟩)

/-- Embedding of `ColorPalette::default` from `src/colors.rs`: the extended
table is the 16 ANSI colours, then the cube, then the grayscale ramp. -/
def ColorPalette.mkDefault : ColorPalette where
  ansi_colors := default_ansi_colors
  extended_colors := default_ansi_colors ++ color_cube ++ grayscale_ramp
  foreground := rgb_to_hsla ⟨0xd4, 0xd4, 0xd4⟩
  background := rgb_to_hsla ⟨0x1e, 0x1e, 0x1e⟩
  cursor := rgb_to_hsla ⟨0xff, 0xff, 0xff⟩

/-- Embedding of `ColorPaletteBuilder::set_ansi_color` from `src/colors.rs`:
the colour is written to both `ansi_colors[idx]` and `extended_colors[idx]`. -/
def set_ansi_color (p : ColorPalette) (idx : Nat) (c : Rgb) : ColorPalette :=
  { p with
      ansi_colors := p.ansi_colors.set idx (rgb_to_hsla c),
      extended_colors := p.extended_colors.set idx (rgb_to_hsla c) }

/-- One fluent call on `ColorPaletteBuilder` (`src/colors.rs`): the three
special-colour setters and the sixteen named ANSI setters. -/
inductive BuilderOp where
  | background (c : Rgb)
  | foreground (c : Rgb)
  | cursor (c : Rgb)
  | namedAnsi (idx : Fin 16) (c : Rgb)
deriving DecidableEq, Repr

/-- Effect of one builder call on the palette under construction.  The
`namedAnsi idx` case covers the sixteen named setters `black` ..
`bright_white`, each of which calls `set_ansi_color` with its fixed index
0..15. -/
def apply_builder_op (p : ColorPalette) : BuilderOp → ColorPalette
  | .background c => { p with background := rgb_to_hsla c }
  | .foreground c => { p with foreground := rgb_to_hsla c }
  | .cursor c => { p with cursor := rgb_to_hsla c }
  | .namedAnsi idx c => set_ansi_color p idx.val c

/-- A full builder run: `ColorPaletteBuilder::new()` (default palette)
followed by any sequence of fluent calls, then `build()`. -/
def builder_build (ops : List BuilderOp) : ColorPalette :=
  ops.foldl apply_builder_op ColorPalette.mkDefault

/-- The palette invariants of the specification: `extended[0..16] == ansi`,
`extended[16..232]` is the 6×6×6 cube at component levels
from 0, 95, 135, 175, 215, 255, and `extended[232..256]` is the
24-step grayscale at `8 + 10·i`. -/
def palette_invariant (p : ColorPalette) : Prop :=
  (∀ i < 16, p.extended_colors[i]? = p.ansi_colors[i]?) ∧
  (∀ r < 6, ∀ g < 6, ∀ b < 6,
    p.extended_colors[16 + 36 * r + 6 * g + b]? =
      some (rgb_to_hsla ⟨cube_level r, cube_level g, cube_level b⟩)) ∧
  (∀ i < 24,
    p.extended_colors[232 + i]? =
      some (rgb_to_hsla ⟨8 + i * 10, 8 + i * 10, 8 + i * 10⟩))

/-! ## Terminal state and view construction (`src/terminal.rs`, `src/view.rs`)

The alacritty engine (`Term`) is an external dependency; the specification
treats it as a consumed contract.  It is modelled here by the data the
claims observe: the configuration passed to `Term::new`, and the grid
dimensions, which the engine's resize sets to the requested values. -/

/-- Engine configuration (alacritty `term::Config`) restricted to the field
the claims observe.  `engine_config_default` is the value of
`Config::default()`: a scrolling history of 10 000 lines (alacritty's
documented default, which also matches this repository's own
`TerminalConfig` default). -/
structure EngineConfig where
  scrolling_history : Nat
deriving DecidableEq, Repr

/-- Modelled from the spec: the external engine's `Config::default()`, whose
scrolling-history budget is 10 000 lines; the engine crate itself is not part
of this repository's sources. -/
def engine_config_default : EngineConfig := ⟨10000⟩

/-- The external engine (`Term`), modelled by the configuration it was
created with and its current grid dimensions (`columns()` and
`screen_lines()`). -/
structure TermEngine where
  config : EngineConfig
  cols : Nat
  rows : Nat
deriving DecidableEq, Repr

/-- Modelled from the spec: `Term::new(config, dims, proxy)` records the
configuration and adopts the requested dimensions; `Term::resize(dims)`
adopts the requested dimensions and leaves the configuration unchanged. -/
def term_engine_new (config : EngineConfig) (cols rows : Nat) : TermEngine :=
  ⟨config, cols, rows⟩

/-- Engine-level resize (see `term_engine_new`). -/
def term_engine_resize (t : TermEngine) (cols rows : Nat) : TermEngine :=
  { t with cols := cols, rows := rows }

/-- Embedding of `TerminalState` from `src/terminal.rs`: the engine plus the
cached `cols`/`rows` fields kept outside the engine lock. -/
structure TerminalState where
  term : TermEngine
  cols : Nat
  rows : Nat
deriving DecidableEq, Repr

/-- Embedding of `TerminalState::new` from `src/terminal.rs`: the engine is
created with `Config::default()` — the configuration is not a parameter —
and the requested dimensions are cached. -/
def terminal_state_new (cols rows : Nat) : TerminalState :=
  { term := term_engine_new engine_config_default cols rows,
    cols := cols, rows := rows }

/-- Embedding of `TerminalState::resize` from `src/terminal.rs`: updates the
cached fields, then resizes the engine. -/
def terminal_state_resize (s : TerminalState) (cols rows : Nat) :
    TerminalState :=
  { s with cols := cols, rows := rows,
           term := term_engine_resize s.term cols rows }

/-- Embedding of `TerminalState::cols`. -/
def terminal_state_cols (s : TerminalState) : Nat := s.cols

/-- Embedding of `TerminalState::rows`. -/
def terminal_state_rows (s : TerminalState) : Nat := s.rows

/-- The resize performed by the paint closure in `TerminalView::render`
(`src/view.rs`): it locks the shared engine obtained via
`TerminalState::term_arc` and calls `term.resize` directly, without going
through `TerminalState::resize`, so the cached fields are untouched. -/
def paint_engine_resize (s : TerminalState) (cols rows : Nat) :
    TerminalState :=
  { s with term := term_engine_resize s.term cols rows }

/-- Embedding of `TerminalView::dimensions` from `src/view.rs`:
`(state.cols(), state.rows())`. -/
def terminal_view_dimensions (s : TerminalState) : Nat × Nat :=
  (terminal_state_cols s, terminal_state_rows s)

/-- Padding edges in pixels (GPUI `Edges<Pixels>`, embedded over ℚ). -/
structure EdgesQ where
  top : ℚ
  right : ℚ
  bottom : ℚ
  left : ℚ
deriving DecidableEq, Repr

/-- Embedding of `TerminalConfig` from `src/view.rs`, with its `Default`
values. -/
structure TerminalConfig where
  cols : Nat := 80
  rows : Nat := 24
  font_family : String := "monospace"
  font_size : ℚ := 14
  scrollback : Nat := 10000
  line_height_multiplier : ℚ := 1
  padding : EdgesQ := ⟨0, 0, 0, 0⟩
  colors : ColorPalette := ColorPalette.mkDefault

/-- The terminal-state construction performed by `TerminalView::new`
(`src/view.rs`): `TerminalState::new(config.cols, config.rows, proxy)`. -/
def terminal_view_new_state (config : TerminalConfig) : TerminalState :=
  terminal_state_new config.cols config.rows

/-- Rust `f32 as usize` applied to a non-NaN value: truncation toward zero,
saturating at zero for negative inputs.  All inputs the resize loop feeds it
are exact rationals, where truncation of a non-negative value is the floor. -/
def rat_as_usize (q : ℚ) : Nat :=
  ⌊q⌋.toNat

/-- The externally observable actions of the paint-layer resize loop, in
order of occurrence. -/
inductive ResizeEvent where
  | resize_callback (cols rows : Nat)
  | engine_resize (cols rows : Nat)
deriving DecidableEq, Repr

/-- Embedding of the resize loop in the paint closure of
`TerminalView::render` (`src/view.rs`): computes the new grid size from the
padded bounds and the measured cell size, and, when it differs from the
engine's current dimensions, invokes the user resize callback (when set) and
then the engine resize.  Returns the emitted actions and the computed
(cols, rows). -/
def render_resize_step (boundsW boundsH : ℚ) (padding : EdgesQ)
    (cellW cellH : ℚ) (curCols curRows : Nat) (hasCallback : Bool) :
    List ResizeEvent × Nat × Nat :=
  let available_width := boundsW - padding.left - padding.right
  let available_height := boundsH - padding.top - padding.bottom
  let cols := (rat_as_usize (available_width / cellW)).max 1
  let rows := (rat_as_usize (available_height / cellH)).max 1
  if cols ≠ curCols ∨ rows ≠ curRows then
    ((if hasCallback then [ResizeEvent.resize_callback cols rows] else []) ++
       [ResizeEvent.engine_resize cols rows], cols, rows)
  else ([], cols, rows)

/-! ## Statement vocabulary for the layout-row invariants -/

/-- All cells absorbed by a batched run share every style field with the run,
and the run's text has exactly one character per absorbed cell. -/
def run_styles_ok (resolve : Nat → Nat) (r : BatchedTextRun) : Prop :=
  r.text.length = r.cells.length ∧
  ∀ e ∈ r.cells,
    resolve e.2.fg = r.fg_color ∧ resolve e.2.bg = r.bg_color ∧
    e.2.bold = r.bold ∧ e.2.italic = r.italic ∧ e.2.underline = r.underline

/-- The run covers exactly the consecutive columns
`start_col .. start_col + len`: the columns of its absorbed cells are
`range' start_col len`. -/
def run_covers (r : BatchedTextRun) : Prop :=
  r.cells.map Prod.fst = List.range' r.start_col r.cells.length

/-- Invariant carried for the current run during the layout loop: it covers
a consecutive column block ending just before `c0`, the column about to be
processed. -/
def opt_run_inv (c0 : Nat) : Option BatchedTextRun → Prop
  | none => True
  | some r => run_covers r ∧ r.start_col + r.cells.length = c0

/-- Invariant carried for the current run's styles during the layout loop. -/
def opt_run_styles (resolve : Nat → Nat) : Option BatchedTextRun → Prop
  | none => True
  | some r => run_styles_ok resolve r

/-- A row with a wide character at column 0, its spacer at column 1, and a
style-identical cell at column 2 — the input refuting claim C3's contiguity
condition. -/
def c3_cex_cells : List (Nat × Cell) :=
  [(0, { c := 'W', fg := 1, bg := 2 }),
   (1, { c := ' ', fg := 1, bg := 2, wide_char_spacer := true }),
   (2, { c := 'x', fg := 1, bg := 2 })]

/-- A spacer-free two-cell row at consecutive columns, used to witness the
amended claim C3. -/
def c3_wit_cells : List (Nat × Cell) :=
  [(0, { c := 'a', fg := 1, bg := 2, bold := true }),
   (1, { c := 'b', fg := 1, bg := 2, bold := true })]

/-! # Theorems -/

/-! ## C1: scrollback configuration -/

/-- C1 (code_bug evaluation): `TerminalView::new` constructs the engine via
`TerminalState::new(config.cols, config.rows, proxy)`, which passes
`Config::default()` to `Term::new` for every configuration; in particular a
config with `scrollback = 50000` still yields an engine whose
scrolling-history budget is the default 10 000, not the configured amount. -/
theorem scrollback_config_ignored :
    (∀ config : TerminalConfig,
      (terminal_view_new_state config).term.config = engine_config_default) ∧
    (terminal_view_new_state { scrollback := 50000 }).term.config.scrolling_history
      = 10000 ∧
    ({ scrollback := 50000 : TerminalConfig }).scrollback ≠ 10000 :=
  ⟨fun _ => rfl, rfl, by decide⟩

/-! ## C10: cached dimensions versus engine dimensions -/

/-- C10: `TerminalState::cols`/`rows` return exactly the values set by the
most recent `new` or `resize`; the paint-layer resize acts directly on the
shared engine and leaves the cached fields unchanged, so after a paint-driven
resize `TerminalView::dimensions` can disagree with the engine grid's
`columns()`/`screen_lines()` — witnessed by a fresh 80×24 state whose engine
is paint-resized to 100×30. -/
theorem cached_dimensions_stale_after_paint_resize :
    (∀ c r, terminal_view_dimensions (terminal_state_new c r) = (c, r)) ∧
    (∀ s c r, terminal_view_dimensions (terminal_state_resize s c r) = (c, r)) ∧
    (∀ s c r,
      terminal_view_dimensions (paint_engine_resize s c r) =
        terminal_view_dimensions s ∧
      (paint_engine_resize s c r).term.cols = c ∧
      (paint_engine_resize s c r).term.rows = r) ∧
    (terminal_view_dimensions
        (paint_engine_resize (terminal_state_new 80 24) 100 30) = (80, 24) ∧
     (paint_engine_resize (terminal_state_new 80 24) 100 30).term.cols = 100 ∧
     (paint_engine_resize (terminal_state_new 80 24) 100 30).term.rows = 30 ∧
     terminal_view_dimensions
        (paint_engine_resize (terminal_state_new 80 24) 100 30) ≠
       ((paint_engine_resize (terminal_state_new 80 24) 100 30).term.cols,
        (paint_engine_resize (terminal_state_new 80 24) 100 30).term.rows)) :=
  ⟨fun _ _ => rfl, fun _ _ _ => rfl, fun _ _ _ => ⟨rfl, rfl, rfl⟩,
   rfl, rfl, rfl, by decide⟩

/-! ## C5: totality of the box-drawing table -/

/-- Every code point in U+2500..=U+257F other than the three diagonals has a
segment table entry with at least one present segment (checked over all 128
entries). -/
theorem box_table_in_range_check :
    ((List.range' 0x2500 128).all (fun code =>
      (code == 0x2571 || code == 0x2572 || code == 0x2573) ||
      (match get_box_segments_code code with
       | some s => s.hasSegment
       | none => false))) = true := by decide

/-- Outside U+2500..=U+257F the segment lookup is `none`. -/
theorem box_table_out_of_range (code : Nat)
    (h : code < 0x2500 ∨ 0x257F < code) :
    get_box_segments_code code = none := by
  unfold get_box_segments_code
  rw [if_pos]
  simpa using h

/-- C5: for every character in U+2500..=U+257F except the diagonals U+2571,
U+2572, U+2573, `get_box_segments` returns `Some` with at least one segment
present; for the diagonals and everything outside the range it returns
`None`. -/
theorem get_box_segments_range_total (c : Char) :
    ((0x2500 ≤ c.toNat ∧ c.toNat ≤ 0x257F ∧ c.toNat ≠ 0x2571 ∧
        c.toNat ≠ 0x2572 ∧ c.toNat ≠ 0x2573) →
      ∃ s, get_box_segments c = some s ∧ s.hasSegment = true) ∧
    ((c.toNat < 0x2500 ∨ 0x257F < c.toNat ∨ c.toNat = 0x2571 ∨
        c.toNat = 0x2572 ∨ c.toNat = 0x2573) →
      get_box_segments c = none) := by
  constructor
  · rintro ⟨h1, h2, h3, h4, h5⟩
    have hmem : c.toNat ∈ List.range' 0x2500 128 := by
      rw [List.mem_range'_1]
      omega
    have hall := List.all_eq_true.mp box_table_in_range_check _ hmem
    simp only [Bool.or_eq_true, beq_iff_eq] at hall
    rcases hall with ((h | h) | h) | h
    · exact absurd h h3
    · exact absurd h h4
    · exact absurd h h5
    · unfold get_box_segments
      cases hseg : get_box_segments_code c.toNat with
      | none => rw [hseg] at h; exact absurd h (by decide)
      | some s => rw [hseg] at h; exact ⟨s, rfl, h⟩
  · intro h
    unfold get_box_segments
    rcases h with h | h | h | h | h
    · exact box_table_out_of_range _ (Or.inl h)
    · exact box_table_out_of_range _ (Or.inr h)
    all_goals rw [h]; decide

/-- Witness for C5 at the light cross U+253C and the diagonal cross U+2573. -/
theorem get_box_segments_range_total_witness :
    (∃ s, get_box_segments '┼' = some s ∧ s.hasSegment = true) ∧
    get_box_segments '╳' = none :=
  ⟨(get_box_segments_range_total '┼').1 (by decide),
   (get_box_segments_range_total '╳').2 (by decide)⟩

/-! ## C2: fall-through of `None`-lookup characters to the text pass -/

/-- Counterexample to C2 as stated: for the diagonal U+2571 the segment
lookup returns `None`, yet the paint does not fall through to the text pass —
the character is inside the box-drawing range, so the text pass skips it and
the box passes draw nothing: the cell is dropped entirely. -/
theorem diagonal_dropped_counterexample :
    get_box_segments '╱' = none ∧ painted_as_text '╱' = false ∧
    box_pass_draws '╱' = false := by decide

/-- C2 amended: a non-blank character whose lookup is `None` falls through to
the text pass and is painted as glyph text exactly when it lies outside the
box-drawing range U+2500..=U+257F; the three diagonals, although their
lookup is `None`, lie inside the range and are painted by no pass at all. -/
theorem none_lookup_text_fallthrough (c : Char)
    (hnone : get_box_segments c = none) :
    (is_box_drawing_char c = false → c ≠ ' ' → c ≠ Char.ofNat 0 →
      painted_as_text c = true) ∧
    (is_box_drawing_char c = true →
      painted_as_text c = false ∧ box_pass_draws c = false) := by
  constructor
  · intro hbox hsp hnul
    simp [painted_as_text, hbox, hsp, hnul]
  · intro hbox
    refine ⟨by simp [painted_as_text, hbox], ?_⟩
    simp [box_pass_draws, hbox, hnone]

/-- Witness for C2 amended, at the letter A (outside the range, painted as
text) and the diagonal U+2571 (inside the range, painted nowhere). -/
theorem none_lookup_text_fallthrough_witness :
    painted_as_text 'A' = true ∧
    (painted_as_text '╱' = false ∧ box_pass_draws '╱' = false) :=
  ⟨(none_lookup_text_fallthrough 'A' (by decide)).1 (by decide) (by decide)
      (by decide),
   (none_lookup_text_fallthrough '╱' (by decide)).2 (by decide)⟩

/-! ## C6: SGR mouse-button reports -/

/-- C6: `mouse_button_report` returns `None` when no mouse-reporting flag is
set and for buttons other than Left/Middle/Right; otherwise it returns
exactly `ESC [ < B ; col ; row X` with `B = button_code | modifiers`
(Left 0, Middle 1, Right 2), 1-based coordinates, and `X` = `M` for press,
`m` for release; in particular a left press at (line 5, column 10) with no
modifiers under MOUSE_REPORT_CLICK yields the bytes of `ESC [<0;11;6M`. -/
theorem mouse_button_report_spec (pressed : Bool) (point : AlacPoint)
    (modifiers : Nat) (mode : TermMode) :
    (mode.anyMouseMode = false → ∀ button,
      mouse_button_report button pressed point modifiers mode = none) ∧
    (mouse_button_report .other pressed point modifiers mode = none) ∧
    (mode.anyMouseMode = true →
      mouse_button_report .left pressed point modifiers mode =
        some (sgr_bytes (Nat.lor 0 modifiers) (point.column + 1)
          (point.line + 1) (if pressed then 0x4D else 0x6D)) ∧
      mouse_button_report .middle pressed point modifiers mode =
        some (sgr_bytes (Nat.lor 1 modifiers) (point.column + 1)
          (point.line + 1) (if pressed then 0x4D else 0x6D)) ∧
      mouse_button_report .right pressed point modifiers mode =
        some (sgr_bytes (Nat.lor 2 modifiers) (point.column + 1)
          (point.line + 1) (if pressed then 0x4D else 0x6D))) ∧
    (mouse_button_report .left true ⟨5, 10⟩ 0 { mouseReportClick := true } =
      some [0x1B, 0x5B, 0x3C, 0x30, 0x3B, 0x31, 0x31, 0x3B, 0x36, 0x4D]) := by
  refine ⟨?_, ?_, ?_, by decide⟩
  · intro h button
    cases button <;> simp [mouse_button_report, h]
  · cases h : mode.anyMouseMode <;> simp [mouse_button_report, h]
  · intro h
    refine ⟨?_, ?_, ?_⟩ <;>
      simp [mouse_button_report, h, mouse_button_report.button_report_bytes]

/-- Witness for C6: a middle-button release at the origin with all modifier
bits (28) under MOUSE_MOTION, and a left press with mouse reporting off. -/
theorem mouse_button_report_spec_witness :
    mouse_button_report .middle false ⟨0, 0⟩ 28 { mouseMotion := true } =
      some (sgr_bytes (Nat.lor 1 28) 1 1 0x6D) ∧
    mouse_button_report .left true ⟨3, 4⟩ 0 {} = none :=
  ⟨((mouse_button_report_spec false ⟨0, 0⟩ 28
      { mouseMotion := true }).2.2.1 (by decide)).2.1,
   (mouse_button_report_spec true ⟨3, 4⟩ 0 {}).1 (by decide) .left⟩

/-! ## C7: scroll reports -/

/-- The SGR report always ends in the given action byte. -/
theorem sgr_bytes_getLast (button_value col : Nat) (row : Int) (action : Nat) :
    (sgr_bytes button_value col row action).getLast? = some action := by
  have hsplit : sgr_bytes button_value col row action =
      ([0x1B, 0x5B, 0x3C] ++ nat_decimal_bytes button_value ++ [0x3B] ++
        nat_decimal_bytes col ++ [0x3B] ++ int_decimal_bytes row) ++ [action] := by
    simp [sgr_bytes]
  rw [hsplit, List.getLast?_concat]

/-- C7: `scroll_report` with any mouse-reporting flag set emits an SGR press
report — button `64 | modifiers` for positive delta, `65 | modifiers` for
negative delta, always terminated with `M`; otherwise under ALT_SCREEN it
emits `min(|delta|, 5)` repetitions of the arrow sequence (SS3 form when
APP_CURSOR); otherwise it returns `None`.  The spec's concrete case
(ALT_SCREEN ∪ APP_CURSOR, delta −2) gives `1B 4F 42 1B 4F 42`. -/
theorem scroll_report_spec (delta : Int) (point : AlacPoint)
    (modifiers : Nat) (mode : TermMode) :
    (mode.anyMouseMode = true →
      (0 < delta → scroll_report delta point modifiers mode =
        some (sgr_bytes (Nat.lor 64 modifiers) (point.column + 1)
          (point.line + 1) 0x4D)) ∧
      (delta < 0 → scroll_report delta point modifiers mode =
        some (sgr_bytes (Nat.lor 65 modifiers) (point.column + 1)
          (point.line + 1) 0x4D)) ∧
      (∃ bs, scroll_report delta point modifiers mode = some bs ∧
        bs.getLast? = some 0x4D)) ∧
    (mode.anyMouseMode = false → mode.altScreen = true →
      scroll_report delta point modifiers mode =
        some ((List.replicate (min delta.natAbs 5)
          (if 0 < delta then
            (if mode.appCursor then [0x1B, 0x4F, 0x41] else [0x1B, 0x5B, 0x41])
          else
            (if mode.appCursor then [0x1B, 0x4F, 0x42]
             else [0x1B, 0x5B, 0x42]))).flatten)) ∧
    (mode.anyMouseMode = false → mode.altScreen = false →
      scroll_report delta point modifiers mode = none) ∧
    (scroll_report (-2) ⟨0, 0⟩ 0 { altScreen := true, appCursor := true } =
      some [0x1B, 0x4F, 0x42, 0x1B, 0x4F, 0x42]) := by
  refine ⟨?_, ?_, ?_, by decide⟩
  · intro h
    refine ⟨?_, ?_, ?_⟩
    · intro hd
      simp [scroll_report, h, hd]
    · intro hd
      have hd' : ¬(0 < delta) := by omega
      simp [scroll_report, h, hd']
    · exact ⟨sgr_bytes (Nat.lor (if 0 < delta then (64 : Nat) else 65) modifiers)
        (point.column + 1) (point.line + 1) 0x4D,
        by simp [scroll_report, h], sgr_bytes_getLast _ _ _ _⟩
  · intro h halt
    simp [scroll_report, h, halt, scroll_to_arrow_keys, decide_eq_true_eq]
  · intro h halt
    simp [scroll_report, h, halt]

/-- Witness for C7: wheel-up under MOUSE_REPORT_CLICK at (line 5, column 10),
and the no-mode fallback returning `None` (spec scenario S3). -/
theorem scroll_report_spec_witness :
    scroll_report 3 ⟨5, 10⟩ 0 { mouseReportClick := true } =
      some (sgr_bytes (Nat.lor 64 0) 11 6 0x4D) ∧
    scroll_report 3 ⟨0, 0⟩ 0 {} = none :=
  ⟨((scroll_report_spec 3 ⟨5, 10⟩ 0 { mouseReportClick := true }).1
      (by decide)).1 (by decide),
   (scroll_report_spec 3 ⟨0, 0⟩ 0 {}).2.2.1 (by decide) (by decide)⟩

/-! ## C8: palette invariants -/

/-- Every builder operation preserves the palette array lengths. -/
theorem apply_builder_op_lengths (p : ColorPalette) (op : BuilderOp)
    (h16 : p.ansi_colors.length = 16) (h256 : p.extended_colors.length = 256) :
    (apply_builder_op p op).ansi_colors.length = 16 ∧
    (apply_builder_op p op).extended_colors.length = 256 := by
  cases op <;> simp [apply_builder_op, set_ansi_color, h16, h256]

/-- Every builder operation preserves the palette invariants: the special
colour setters do not touch the arrays, and `set_ansi_color` writes the same
colour to both arrays at an index below 16. -/
theorem apply_builder_op_invariant (p : ColorPalette) (op : BuilderOp)
    (h16 : p.ansi_colors.length = 16) (h256 : p.extended_colors.length = 256)
    (hinv : palette_invariant p) :
    palette_invariant (apply_builder_op p op) := by
  cases op with
  | background c => exact hinv
  | foreground c => exact hinv
  | cursor c => exact hinv
  | namedAnsi idx c =>
    obtain ⟨hA, hC, hG⟩ := hinv
    have hlt := idx.isLt
    refine ⟨?_, ?_, ?_⟩
    · intro i hi
      show (p.extended_colors.set idx.val _)[i]? = (p.ansi_colors.set idx.val _)[i]?
      by_cases hieq : idx.val = i
      · subst hieq
        rw [List.getElem?_set_self (by omega), List.getElem?_set_self (by omega)]
      · rw [List.getElem?_set_ne hieq, List.getElem?_set_ne hieq]
        exact hA i hi
    · intro r hr g hg b hb
      show (p.extended_colors.set idx.val _)[16 + 36 * r + 6 * g + b]? = _
      rw [List.getElem?_set_ne (by omega)]
      exact hC r hr g hg b hb
    · intro i hi
      show (p.extended_colors.set idx.val _)[232 + i]? = _
      rw [List.getElem?_set_ne (by omega)]
      exact hG i hi

set_option maxRecDepth 40000 in
/-- The default palette satisfies the invariants (checked entry by entry). -/
theorem palette_default_invariant : palette_invariant ColorPalette.mkDefault :=
  ⟨by decide, by decide, by decide⟩

/-- Folding builder operations from any invariant-satisfying palette keeps
the invariant. -/
theorem builder_fold_invariant (ops : List BuilderOp) :
    ∀ p : ColorPalette, p.ansi_colors.length = 16 →
      p.extended_colors.length = 256 → palette_invariant p →
      palette_invariant (ops.foldl apply_builder_op p) := by
  induction ops with
  | nil => intro p _ _ hinv; exact hinv
  | cons op rest ih =>
    intro p h16 h256 hinv
    have hlen := apply_builder_op_lengths p op h16 h256
    exact ih _ hlen.1 hlen.2 (apply_builder_op_invariant p op h16 h256 hinv)

set_option maxRecDepth 40000 in
/-- C8: every palette produced by `ColorPalette::default()` or by any
sequence of builder calls satisfies the palette invariants:
`extended[i] = ansi[i]` for `i < 16` (ANSI changes are mirrored),
`extended[16 + 36r + 6g + b]` is the conversion of the cube triple with
component levels in 0, 95, 135, 175, 215, 255, and `extended[232 + i]` is
the grayscale value `8 + 10·i` on all three channels. -/
theorem palette_builder_invariant (ops : List BuilderOp) :
    palette_invariant (builder_build ops) :=
  builder_fold_invariant ops ColorPalette.mkDefault (by decide) (by decide)
    palette_default_invariant

set_option maxRecDepth 40000 in
/-- Witness for C8: after setting ANSI colour 1, the extended table mirrors
it; the untouched grayscale entry 232 and a cube entry keep their values. -/
theorem palette_builder_invariant_witness :
    (builder_build [BuilderOp.namedAnsi ⟨1, by decide⟩ ⟨10, 20, 30⟩]).extended_colors[1]? =
      (builder_build [BuilderOp.namedAnsi ⟨1, by decide⟩ ⟨10, 20, 30⟩]).ansi_colors[1]? ∧
    (builder_build []).extended_colors[232]? = some (rgb_to_hsla ⟨8, 8, 8⟩) ∧
    (builder_build []).extended_colors[16 + 36 * 1 + 6 * 2 + 3]? =
      some (rgb_to_hsla ⟨95, 135, 175⟩) := by
  refine ⟨(palette_builder_invariant _).1 1 (by decide), ?_, ?_⟩
  · have h := (palette_builder_invariant []).2.2 0 (by decide)
    simpa using h
  · have h := (palette_builder_invariant []).2.1 1 (by decide) 2 (by decide) 3
      (by decide)
    simpa [cube_level] using h

/-! ## C9: the paint-layer resize loop -/

/-- Saturating truncation agrees with the specification's clamped floor. -/
theorem rat_as_usize_max_one (q : ℚ) :
    (rat_as_usize q).max 1 = (max 1 ⌊q⌋).toNat := by
  unfold rat_as_usize
  simp only [Nat.max_def, max_def]
  split_ifs <;> omega

/-- C9: on every paint the resize loop computes
`cols = max(1, floor(available_width / cell_width))` and
`rows = max(1, floor(available_height / cell_height))` with padding excluded
from the available size, so both are at least 1 and the engine is never
asked for zero dimensions; when the computed size differs from the engine's
current one the user resize callback (when set) is invoked before the engine
resize, and when it is equal neither is invoked. -/
theorem resize_loop_spec (boundsW boundsH : ℚ) (padding : EdgesQ)
    (cellW cellH : ℚ) (curCols curRows : Nat) (hasCallback : Bool) :
    ((render_resize_step boundsW boundsH padding cellW cellH curCols curRows
        hasCallback).2.1 =
      (max 1 ⌊(boundsW - padding.left - padding.right) / cellW⌋).toNat) ∧
    ((render_resize_step boundsW boundsH padding cellW cellH curCols curRows
        hasCallback).2.2 =
      (max 1 ⌊(boundsH - padding.top - padding.bottom) / cellH⌋).toNat) ∧
    (1 ≤ (render_resize_step boundsW boundsH padding cellW cellH curCols
        curRows hasCallback).2.1 ∧
     1 ≤ (render_resize_step boundsW boundsH padding cellW cellH curCols
        curRows hasCallback).2.2) ∧
    ((render_resize_step boundsW boundsH padding cellW cellH curCols curRows
        hasCallback).2.1 = curCols ∧
     (render_resize_step boundsW boundsH padding cellW cellH curCols curRows
        hasCallback).2.2 = curRows →
      (render_resize_step boundsW boundsH padding cellW cellH curCols curRows
        hasCallback).1 = []) ∧
    (¬((render_resize_step boundsW boundsH padding cellW cellH curCols curRows
        hasCallback).2.1 = curCols ∧
       (render_resize_step boundsW boundsH padding cellW cellH curCols curRows
        hasCallback).2.2 = curRows) →
      (render_resize_step boundsW boundsH padding cellW cellH curCols curRows
        hasCallback).1 =
        (if hasCallback then
          [ResizeEvent.resize_callback
            (render_resize_step boundsW boundsH padding cellW cellH curCols
              curRows hasCallback).2.1
            (render_resize_step boundsW boundsH padding cellW cellH curCols
              curRows hasCallback).2.2]
         else []) ++
          [ResizeEvent.engine_resize
            (render_resize_step boundsW boundsH padding cellW cellH curCols
              curRows hasCallback).2.1
            (render_resize_step boundsW boundsH padding cellW cellH curCols
              curRows hasCallback).2.2]) ∧
    (∀ c r, ResizeEvent.engine_resize c r ∈
        (render_resize_step boundsW boundsH padding cellW cellH curCols
          curRows hasCallback).1 → 1 ≤ c ∧ 1 ≤ r) := by
  simp only [render_resize_step]
  split
  next hcond =>
    refine ⟨rat_as_usize_max_one _, rat_as_usize_max_one _,
      ⟨Nat.le_max_right _ _, Nat.le_max_right _ _⟩, ?_, fun _ => rfl, ?_⟩
    · intro h
      rcases hcond with hc | hc
      · exact absurd h.1 hc
      · exact absurd h.2 hc
    · intro c r hmem
      rcases List.mem_append.mp hmem with h1 | h1
      · cases hasCallback <;> simp at h1
      · simp at h1
        rcases h1 with ⟨rfl, rfl⟩
        exact ⟨Nat.le_max_right _ _, Nat.le_max_right _ _⟩
  next hcond =>
    refine ⟨rat_as_usize_max_one _, rat_as_usize_max_one _,
      ⟨Nat.le_max_right _ _, Nat.le_max_right _ _⟩, fun _ => rfl, ?_, by simp⟩
    intro h
    rcases not_or.mp hcond with ⟨hc, hr⟩
    rcases not_not.mp hc, not_not.mp hr with ⟨hc', hr'⟩
    exact absurd ⟨hc', hr'⟩ h

/-- Witness for C9 (spec scenario S6): 800×480 bounds, zero padding, 10×20
cells, current engine size 10×10 — the loop emits the resize callback for
80×24 and then the engine resize. -/
theorem resize_loop_spec_witness :
    (render_resize_step 800 480 ⟨0, 0, 0, 0⟩ 10 20 10 10 true).1 =
      [ResizeEvent.resize_callback 80 24, ResizeEvent.engine_resize 80 24] := by
  have h := resize_loop_spec 800 480 ⟨0, 0, 0, 0⟩ 10 20 10 10 true
  have hcols : (render_resize_step 800 480 ⟨0, 0, 0, 0⟩ 10 20 10 10 true).2.1
      = 80 := by
    rw [h.1]
    show (max 1 ⌊(800 - (0 : ℚ) - 0) / 10⌋).toNat = 80
    norm_num
    decide
  have hrows : (render_resize_step 800 480 ⟨0, 0, 0, 0⟩ 10 20 10 10 true).2.2
      = 24 := by
    rw [h.2.1]
    show (max 1 ⌊(480 - (0 : ℚ) - 0) / 20⌋).toNat = 24
    norm_num
    decide
  have hne : ¬((render_resize_step 800 480 ⟨0, 0, 0, 0⟩ 10 20 10 10 true).2.1
      = 10 ∧
      (render_resize_step 800 480 ⟨0, 0, 0, 0⟩ 10 20 10 10 true).2.2 = 10) := by
    intro hand
    have := hand.1
    rw [hcols] at this
    exact absurd this (by decide)
  have hev := h.2.2.2.2.1 hne
  rw [hev, hcols, hrows]
  rfl

/-! ## C4: keyboard encoder -/

/-- ASCII letters are below 0x80. -/
theorem alpha_char_ascii (c : Char) (h : c.isAlpha = true) : c.toNat < 0x80 := by
  simp [Char.isAlpha, Char.isUpper, Char.isLower] at h
  rcases h with ⟨h1, h2⟩ | ⟨h1, h2⟩ <;>
  · rw [UInt32.le_def, BitVec.le_def] at h2
    simp [Char.toNat, UInt32.toNat] at h2 ⊢
    omega

/-- A one-character ASCII string has Rust byte length 1. -/
theorem single_char_utf8_len (c : Char) (h : c.toNat < 0x80) :
    utf8_len (String.mk [c]) = 1 := by
  simp [utf8_len, utf8_bytes, utf8_encode_char, h]

/-- A string of one character differs from any string of another length. -/
theorem single_key_ne (key s : String) (hlen : key.data.length = 1)
    (hs : s.data.length ≠ 1) : key ≠ s := fun hc => hs (hc ▸ hlen)

/-- A single-character key matches none of the named-key arms, whose names
all have more than one character. -/
theorem named_key_bytes_single (ks : Keystroke) (mode : TermMode)
    (h : ks.key.data.length = 1) : named_key_bytes ks mode = none := by
  unfold named_key_bytes
  rw [if_neg (single_key_ne _ _ h (by decide)),
      if_neg (single_key_ne _ _ h (by decide)),
      if_neg (single_key_ne _ _ h (by decide)),
      if_neg (single_key_ne _ _ h (by decide)),
      if_neg (single_key_ne _ _ h (by decide)),
      if_neg (single_key_ne _ _ h (by decide)),
      if_neg (single_key_ne _ _ h (by decide)),
      if_neg (single_key_ne _ _ h (by decide)),
      if_neg (single_key_ne _ _ h (by decide)),
      if_neg (single_key_ne _ _ h (by decide)),
      if_neg (single_key_ne _ _ h (by decide)),
      if_neg (single_key_ne _ _ h (by decide)),
      if_neg (single_key_ne _ _ h (by decide)),
      if_neg (single_key_ne _ _ h (by decide)),
      if_neg (single_key_ne _ _ h (by decide)),
      if_neg (single_key_ne _ _ h (by decide)),
      if_neg (single_key_ne _ _ h (by decide)),
      if_neg (single_key_ne _ _ h (by decide)),
      if_neg (single_key_ne _ _ h (by decide)),
      if_neg (single_key_ne _ _ h (by decide)),
      if_neg (single_key_ne _ _ h (by decide)),
      if_neg (single_key_ne _ _ h (by decide)),
      if_neg (single_key_ne _ _ h (by decide)),
      if_neg (single_key_ne _ _ h (by decide)),
      if_neg (single_key_ne _ _ h (by decide)),
      if_neg (single_key_ne _ _ h (by decide)),
      if_neg (single_key_ne _ _ h (by decide))]

/-- C4: the keyboard encoder emits exactly the specified sequences — Enter
0x0D; Shift+Tab ESC [ Z (named-key handling precedes modifier handling);
arrows CSI A/B/C/D normally and SS3 A/B/C/D under APP_CURSOR; F1–F4 SS3
P/Q/R/S; F5–F12 the non-contiguous CSI numbers 15, 17, 18, 19, 20, 21, 23,
24 followed by `~`; and Ctrl with an ASCII letter the single byte
`uppercase(letter) − 0x40`. -/
theorem keystroke_encoder_spec (m : Modifiers) (mode : TermMode)
    (kc : Option String) :
    keystroke_to_bytes ⟨"enter", kc, m⟩ mode = some [0x0D] ∧
    (m.shift = true →
      keystroke_to_bytes ⟨"tab", kc, m⟩ mode = some [0x1B, 0x5B, 0x5A]) ∧
    (mode.appCursor = false →
      keystroke_to_bytes ⟨"up", kc, m⟩ mode = some [0x1B, 0x5B, 0x41] ∧
      keystroke_to_bytes ⟨"down", kc, m⟩ mode = some [0x1B, 0x5B, 0x42] ∧
      keystroke_to_bytes ⟨"right", kc, m⟩ mode = some [0x1B, 0x5B, 0x43] ∧
      keystroke_to_bytes ⟨"left", kc, m⟩ mode = some [0x1B, 0x5B, 0x44]) ∧
    (mode.appCursor = true →
      keystroke_to_bytes ⟨"up", kc, m⟩ mode = some [0x1B, 0x4F, 0x41] ∧
      keystroke_to_bytes ⟨"down", kc, m⟩ mode = some [0x1B, 0x4F, 0x42] ∧
      keystroke_to_bytes ⟨"right", kc, m⟩ mode = some [0x1B, 0x4F, 0x43] ∧
      keystroke_to_bytes ⟨"left", kc, m⟩ mode = some [0x1B, 0x4F, 0x44]) ∧
    keystroke_to_bytes ⟨"f1", kc, m⟩ mode = some [0x1B, 0x4F, 0x50] ∧
    keystroke_to_bytes ⟨"f2", kc, m⟩ mode = some [0x1B, 0x4F, 0x51] ∧
    keystroke_to_bytes ⟨"f3", kc, m⟩ mode = some [0x1B, 0x4F, 0x52] ∧
    keystroke_to_bytes ⟨"f4", kc, m⟩ mode = some [0x1B, 0x4F, 0x53] ∧
    keystroke_to_bytes ⟨"f5", kc, m⟩ mode = some [0x1B, 0x5B, 0x31, 0x35, 0x7E] ∧
    keystroke_to_bytes ⟨"f6", kc, m⟩ mode = some [0x1B, 0x5B, 0x31, 0x37, 0x7E] ∧
    keystroke_to_bytes ⟨"f7", kc, m⟩ mode = some [0x1B, 0x5B, 0x31, 0x38, 0x7E] ∧
    keystroke_to_bytes ⟨"f8", kc, m⟩ mode = some [0x1B, 0x5B, 0x31, 0x39, 0x7E] ∧
    keystroke_to_bytes ⟨"f9", kc, m⟩ mode = some [0x1B, 0x5B, 0x32, 0x30, 0x7E] ∧
    keystroke_to_bytes ⟨"f10", kc, m⟩ mode = some [0x1B, 0x5B, 0x32, 0x31, 0x7E] ∧
    keystroke_to_bytes ⟨"f11", kc, m⟩ mode = some [0x1B, 0x5B, 0x32, 0x33, 0x7E] ∧
    keystroke_to_bytes ⟨"f12", kc, m⟩ mode = some [0x1B, 0x5B, 0x32, 0x34, 0x7E] ∧
    (∀ c : Char, c.isAlpha = true →
      keystroke_to_bytes
          ⟨String.mk [c], kc, { control := true, alt := m.alt, shift := m.shift }⟩
          mode =
        some [c.toUpper.toNat - 0x40]) := by
  refine ⟨rfl, ?_, ?_, ?_, rfl, rfl, rfl, rfl, rfl, rfl, rfl, rfl, rfl, rfl,
    rfl, rfl, ?_⟩
  · intro h
    simp [keystroke_to_bytes, named_key_bytes, h]
  · intro h
    refine ⟨?_, ?_, ?_, ?_⟩ <;> simp [keystroke_to_bytes, named_key_bytes, h]
  · intro h
    refine ⟨?_, ?_, ?_, ?_⟩ <;> simp [keystroke_to_bytes, named_key_bytes, h]
  · intro c hch
    have hascii := alpha_char_ascii c hch
    have h1 : named_key_bytes
        ⟨String.mk [c], kc, { control := true, alt := m.alt, shift := m.shift }⟩
        mode = none :=
      named_key_bytes_single _ _ rfl
    have h2 : ctrl_key_bytes
        ⟨String.mk [c], kc, { control := true, alt := m.alt, shift := m.shift }⟩ =
        some [c.toUpper.toNat - 0x40] := by
      simp [ctrl_key_bytes, single_char_utf8_len c hascii, hch]
    simp [keystroke_to_bytes, h1, h2]

/-- Witness for C4: Shift+Tab, Up under APP_CURSOR, and Ctrl+C. -/
theorem keystroke_encoder_spec_witness :
    keystroke_to_bytes ⟨"tab", none, { shift := true }⟩ {} =
      some [0x1B, 0x5B, 0x5A] ∧
    keystroke_to_bytes ⟨"up", none, {}⟩ { appCursor := true } =
      some [0x1B, 0x4F, 0x41] ∧
    keystroke_to_bytes ⟨String.mk ['c'], none, { control := true }⟩ {} =
      some [0x03] := by
  refine ⟨(keystroke_encoder_spec { shift := true } {} none).2.1 rfl,
    ((keystroke_encoder_spec {} { appCursor := true } none).2.2.2.1 rfl).1, ?_⟩
  have h := (keystroke_encoder_spec {} {}
    none).2.2.2.2.2.2.2.2.2.2.2.2.2.2.2.2 'c' (by decide)
  exact h.trans (by decide)

/-! ## C3: row-layout batching -/

/-- Every run produced by the layout loop has one text character per
absorbed cell and shares every style field with each absorbed cell (the
extension guard compares exactly the five style fields). -/
theorem layout_row_go_styles (resolve : Nat → Nat) (row : Nat) :
    ∀ (cells : List (Nat × Cell)) (cur : Option BatchedTextRun)
      (bg : Option BackgroundRect),
      opt_run_styles resolve cur →
      ∀ r ∈ (layout_row_go resolve row cur bg cells).2, run_styles_ok resolve r := by
  intro cells
  induction cells with
  | nil =>
    intro cur bg hcur r hr
    cases cur with
    | none => simp [layout_row_go] at hr
    | some r0 =>
      simp [layout_row_go] at hr
      subst hr
      exact hcur
  | cons e rest ih =>
    obtain ⟨col, cell⟩ := e
    intro cur bg hcur r hr
    by_cases hsp : cell.wide_char_spacer = true
    · simp only [layout_row_go, hsp, if_true] at hr
      exact ih _ _ hcur r hr
    · cases cur with
      | none =>
        simp only [layout_row_go, hsp] at hr
        simp only [Bool.false_eq_true, if_false, List.nil_append] at hr
        refine ih _ _ ?_ r hr
        refine ⟨rfl, ?_⟩
        intro e he
        simp at he
        subst he
        exact ⟨rfl, rfl, rfl, rfl, rfl⟩
      | some run0 =>
        simp only [layout_row_go, hsp] at hr
        simp only [Bool.false_eq_true, if_false] at hr
        by_cases hmatch : (run0.fg_color == resolve cell.fg &&
            run0.bg_color == resolve cell.bg && run0.bold == cell.bold &&
            run0.italic == cell.italic && run0.underline == cell.underline) = true
        · rw [if_pos hmatch] at hr
          simp only [Bool.and_eq_true, beq_iff_eq] at hmatch
          obtain ⟨⟨⟨⟨hfg, hbg⟩, hbold⟩, hital⟩, hund⟩ := hmatch
          simp only [List.nil_append] at hr
          refine ih _ _ ?_ r hr
          obtain ⟨hlen, hall⟩ := hcur
          refine ⟨by simp [hlen], ?_⟩
          intro e he
          rcases List.mem_append.mp he with h1 | h1
          · exact hall e h1
          · simp at h1
            subst h1
            exact ⟨hfg.symm, hbg.symm, hbold.symm, hital.symm, hund.symm⟩
        · rw [if_neg hmatch] at hr
          simp only [List.cons_append, List.nil_append] at hr
          rcases List.mem_cons.mp hr with h1 | h1
          · subst h1
            exact hcur
          · refine ih _ _ ?_ r h1
            refine ⟨rfl, ?_⟩
            intro e he
            simp at he
            subst he
            exact ⟨rfl, rfl, rfl, rfl, rfl⟩

/-- When the processed cells sit at consecutive columns and none is a wide
character spacer, every produced run covers exactly a consecutive column
block. -/
theorem layout_row_go_covers (resolve : Nat → Nat) (row : Nat) :
    ∀ (cells : List (Nat × Cell)) (c0 : Nat) (cur : Option BatchedTextRun)
      (bg : Option BackgroundRect),
      cells.map Prod.fst = List.range' c0 cells.length →
      (∀ e ∈ cells, e.2.wide_char_spacer = false) →
      opt_run_inv c0 cur →
      ∀ r ∈ (layout_row_go resolve row cur bg cells).2, run_covers r := by
  intro cells
  induction cells with
  | nil =>
    intro c0 cur bg _ _ hcur r hr
    cases cur with
    | none => simp [layout_row_go] at hr
    | some r0 =>
      simp [layout_row_go] at hr
      subst hr
      exact hcur.1
  | cons e rest ih =>
    obtain ⟨col, cell⟩ := e
    intro c0 cur bg hmap hns hcur r hr
    have hspf : cell.wide_char_spacer = false := by
      simpa using hns (col, cell) (List.mem_cons_self _ _)
    have hsp : ¬cell.wide_char_spacer = true := by simp [hspf]
    have hns' : ∀ e ∈ rest, e.2.wide_char_spacer = false := fun e he =>
      hns e (List.mem_cons_of_mem _ he)
    simp only [List.map_cons, List.length_cons, List.range'_succ] at hmap
    injection hmap with hcol hmap'
    subst hcol
    cases cur with
    | none =>
      simp only [layout_row_go, hsp] at hr
      simp only [Bool.false_eq_true, if_false, List.nil_append] at hr
      refine ih _ _ _ hmap' hns' ?_ r hr
      exact ⟨by simp [run_covers], by simp⟩
    | some run0 =>
      obtain ⟨hcov, hend⟩ := hcur
      simp only [layout_row_go, hsp] at hr
      simp only [Bool.false_eq_true, if_false] at hr
      by_cases hmatch : (run0.fg_color == resolve cell.fg &&
          run0.bg_color == resolve cell.bg && run0.bold == cell.bold &&
          run0.italic == cell.italic && run0.underline == cell.underline) = true
      · rw [if_pos hmatch] at hr
        simp only [List.nil_append] at hr
        refine ih _ _ _ hmap' hns' ?_ r hr
        constructor
        · show (run0.cells ++ [(col, cell)]).map Prod.fst =
            List.range' run0.start_col (run0.cells ++ [(col, cell)]).length
          rw [List.map_append, hcov]
          simp only [List.map_cons, List.map_nil, List.length_append,
            List.length_cons, List.length_nil]
          have hcol0 : col = run0.start_col + run0.cells.length := hend.symm
          rw [hcol0, ← List.range'_1_concat]
        · show run0.start_col + (run0.cells ++ [(col, cell)]).length = col + 1
          simp only [List.length_append, List.length_cons, List.length_nil]
          omega
      · rw [if_neg hmatch] at hr
        simp only [List.cons_append, List.nil_append] at hr
        rcases List.mem_cons.mp hr with h1 | h1
        · subst h1
          exact hcov
        · refine ih _ _ _ hmap' hns' ?_ r h1
          exact ⟨by simp [run_covers], by simp⟩

end GpuiTerminal

namespace GpuiTerminal

/-- C3 amended: the run-extension guard of `layout_row` compares only the
five style fields (fg, bg, bold, italic, underline) — column contiguity is
not checked — so the claimed coverage invariant holds for rows whose
non-skipped cells occupy consecutive columns: when the iterated cells sit at
columns 0, 1, 2, … and carry no WIDE_CHAR_SPACER flag, every produced run
covers exactly the consecutive columns `start_col .. start_col + len(text)`
and all its cells share every style field with the run. -/
theorem layout_row_batching (resolve : Nat → Nat) (row : Nat)
    (cells : List (Nat × Cell))
    (hcols : cells.map Prod.fst = List.range' 0 cells.length)
    (hns : ∀ e ∈ cells, e.2.wide_char_spacer = false) :
    ∀ r ∈ (layout_row resolve row cells).2,
      run_styles_ok resolve r ∧ run_covers r ∧
      r.cells.map Prod.fst = List.range' r.start_col r.text.length := by
  intro r hr
  have hr' : r ∈ (layout_row_go resolve row none none cells).2 := hr
  have h1 := layout_row_go_styles resolve row cells none none trivial r hr'
  have h2 := layout_row_go_covers resolve row cells 0 none none hcols hns
    trivial r hr'
  refine ⟨h1, h2, ?_⟩
  rw [h1.1]
  exact h2

/-- Counterexample to C3 as stated: with a wide character at column 0, its
spacer at column 1 and a style-identical cell at column 2, the spacer is
skipped and the run is extended across the gap — the single produced run has
`start_col = 0` and two characters, yet its cells sit at columns 0 and 2,
not at the claimed consecutive block `start_col .. start_col + len(text)`. -/
theorem layout_row_counterexample :
    (layout_row (fun x => x) 0 c3_cex_cells).2.length = 1 ∧
    ∀ r ∈ (layout_row (fun x => x) 0 c3_cex_cells).2,
      r.start_col = 0 ∧ r.text.length = 2 ∧
      r.cells.map Prod.fst = [0, 2] ∧
      r.cells.map Prod.fst ≠ List.range' r.start_col r.text.length := by
  decide

/-- Witness for C3 amended at a concrete spacer-free two-cell row. -/
theorem layout_row_batching_witness :
    run_styles_ok (fun x => x)
      ⟨['a', 'b'], 0, 0, 1, 2, true, false, false, c3_wit_cells⟩ ∧
    run_covers ⟨['a', 'b'], 0, 0, 1, 2, true, false, false, c3_wit_cells⟩ := by
  have h := layout_row_batching (fun x => x) 0 c3_wit_cells (by decide)
    (by decide) ⟨['a', 'b'], 0, 0, 1, 2, true, false, false, c3_wit_cells⟩
    (by decide)
  exact ⟨h.1, h.2.1⟩

end GpuiTerminal
